import Mathlib

/-!
Shallow embedding of the two scripts of the `nexus` repository:

* `src/mock-server.py` — a Flask mock of the OpenAI chat-completions API
  (routes `/health`, `/v1/chat/completions`, `/v1/models`, and a 404
  handler).  Handlers are modelled as pure functions from the parsed
  request data to an HTTP response; the Python `try/except` of the chat
  handler is modelled with `Except String`, where an `error` value stands
  for a raised Python exception.  The wall clock (`time.time()`) and the
  random template choice (`random.choice(RESPONSE_TEMPLATES)`) are
  nondeterministic inputs of the handler, so they are passed as explicit
  parameters.  Console logging (`print`) and `time.sleep` have no effect
  on responses and are not modelled.

* `src/demo.py` — the `NexusDemo` client.  The network is an oracle
  `HttpRequest → PostResult` handed to `make_chat_request`; the function
  also returns the list of outbound requests it issued, which embeds the
  frame fact that the body of `make_chat_request` contains exactly one
  `self.session.post` call and no retry loop.
-/

/-- JSON values, as produced by Flask's `request.get_json()` and consumed
by `jsonify`.  Numbers are integers (every number in the two scripts is an
integer); objects keep their fields in insertion order. -/
inductive Json where
  | null : Json
  | bool (b : Bool) : Json
  | num (n : Int) : Json
  | str (s : String) : Json
  | arr (elems : List Json) : Json
  | obj (fields : List (String × Json)) : Json

/-- An HTTP response of the mock server: a status code and a JSON body
(`jsonify` always returns a JSON body; the default status is 200). -/
structure HttpResponse where
  status : Nat
  body : Json

/-- Field lookup on a JSON object (first binding wins, as in a Python dict
built from JSON, whose keys are unique); `none` on non-objects. -/
def Json.lookupKey : Json → String → Option Json
  | .obj fields, key => fields.lookup key
  | _, _ => none

/-- Python truthiness (`if messages:`) for JSON values: `None`, `False`,
`0`, `""`, `[]` and `{}` are falsy, everything else truthy. -/
def Json.truthy : Json → Bool
  | .null => false
  | .bool b => b
  | .num n => n != 0
  | .str s => !s.isEmpty
  | .arr elems => !elems.isEmpty
  | .obj fields => !fields.isEmpty

/-- Python `data.get(key, default)`: on a dict it returns the stored value
or the default, and never raises; on any other value `.get` does not exist
and an `AttributeError` is raised. -/
def Json.pyGet (j : Json) (key : String) (default : Json) : Except String Json :=
  match j with
  | .obj fields => .ok ((fields.lookup key).getD default)
  | _ => .error "AttributeError: object has no attribute get"

/-- Python `len(x)`: defined for strings, lists and dicts; raises a
`TypeError` on numbers, booleans and `None`. -/
def pyLen : Json → Except String Nat
  | .str s => .ok s.length
  | .arr elems => .ok elems.length
  | .obj fields => .ok fields.length
  | _ => .error "TypeError: object has no len"

/-- Python `x[-1]`: the last element of a list, the last character of a
string (as a one-character string); raises `IndexError` when empty and
`TypeError` when `x` is not subscriptable (dicts with JSON string keys
raise `KeyError` on the integer key `-1`, folded into the same error). -/
def pyIndexLast : Json → Except String Json
  | .arr elems =>
    match elems.getLast? with
    | some x => .ok x
    | none => .error "IndexError: list index out of range"
  | .str s =>
    match s.toList.getLast? with
    | some c => .ok (.str (String.mk [c]))
    | none => .error "IndexError: string index out of range"
  | _ => .error "TypeError: object is not subscriptable"

/-- Coercion of `user_message` to a Python `str` at its first string-method
use (`user_message.lower()`): any non-string value raises
`AttributeError`. -/
def asPyStr : Json → Except String String
  | .str s => .ok s
  | _ => .error "AttributeError: object has no attribute lower"

/-- Recursive worker for the Python substring test. -/
def charSeqIn (needle : List Char) : List Char → Bool
  | [] => needle.isEmpty
  | c :: rest => needle.isPrefixOf (c :: rest) || charSeqIn needle rest

/-- Python `needle in haystack` on strings: substring containment. -/
def pyStrIn (needle haystack : String) : Bool :=
  charSeqIn needle.toList haystack.toList

/-- RESPONSE_TEMPLATES of `mock-server.py`: the canned responses
`random.choice` picks from. -/
def RESPONSE_TEMPLATES : List String :=
  ["Hello! I'm a mock AI assistant.",
   "This is a simulated response from the mock API.",
   "The mock server is working correctly!",
   "Your request has been processed by the test server.",
   "This demonstrates Nexus rate limiting functionality."]

/-- Estimated prompt tokens in the mock usage field:
`len(user_message) // 4 + 10` (Python floor division on a nonnegative
length agrees with `Nat` division). -/
def promptTokensEstimate (user_message : String) : Nat :=
  user_message.length / 4 + 10

/-- Estimated completion tokens in the mock usage field:
`len(response_text) // 4 + 5`. -/
def completionTokensEstimate (response_text : String) : Nat :=
  response_text.length / 4 + 5

/-- Total tokens in the mock usage field, written in the source as
`len(user_message) // 4 + len(response_text) // 4 + 15`. -/
def totalTokensField (user_message response_text : String) : Nat :=
  user_message.length / 4 + response_text.length / 4 + 15

/-- The `mock_response` dict built by `chat_completions` on success.
`now` stands for `int(time.time())`, `model` for
`data.get('model', 'gpt-3.5-turbo')`. -/
def mock_response (now : Nat) (model : Json)
    (response_text user_message : String) : Json :=
  .obj [("id", .str ("chatcmpl-mock-" ++ toString now)),
        ("object", .str "chat.completion"),
        ("created", .num now),
        ("model", model),
        ("choices", .arr
          [.obj [("index", .num 0),
                 ("message", .obj [("role", .str "assistant"),
                                   ("content", .str response_text)]),
                 ("finish_reason", .str "stop")]]),
        ("usage", .obj
          [("prompt_tokens", .num (promptTokensEstimate user_message)),
           ("completion_tokens", .num (completionTokensEstimate response_text)),
           ("total_tokens", .num (totalTokensField user_message response_text))])]

/-- The structured 500 body of the chat handler's `except` branch:
`{"error": {"message": f"Mock server error: {str(e)}", "type":
"mock_error", "code": "mock_server_error"}}`. -/
def serverErrorBody (e : String) : Json :=
  .obj [("error", .obj
    [("message", .str ("Mock server error: " ++ e)),
     ("type", .str "mock_error"),
     ("code", .str "mock_server_error")])]

/-- Flask's `request.get_json()`: `rawBody = none` stands for a request
body that does not parse as JSON, on which `get_json` raises. -/
def getJsonOrRaise : Option Json → Except String Json
  | none => .error "BadRequest: failed to decode JSON object"
  | some j => .ok j

/-- Body of the `try:` block of `chat_completions`, step for step:
parse the JSON body, evaluate the two logged expressions
(`data.get('model', 'unknown')` and `len(data.get('messages', []))`, which
can raise and whose values are otherwise unused), read
`messages = data.get('messages', [])`, take `messages[-1].get('content',
'')` when `messages` is truthy and `""` otherwise, pick the response text
(`template` stands for the result of `random.choice(RESPONSE_TEMPLATES)`,
overridden when `"test" in user_message.lower()`), and return the
200 `jsonify(mock_response)`.  An `error` value is a raised exception. -/
def chatTry (rawBody : Option Json) (now : Nat) (template : String) :
    Except String HttpResponse :=
  match getJsonOrRaise rawBody with
  | .error e => .error e
  | .ok data =>
    match data.pyGet "model" (.str "unknown") with
    | .error e => .error e
    | .ok _loggedModel =>
      match data.pyGet "messages" (.arr []) with
      | .error e => .error e
      | .ok loggedMessages =>
        match pyLen loggedMessages with
        | .error e => .error e
        | .ok _loggedLen =>
          match data.pyGet "messages" (.arr []) with
          | .error e => .error e
          | .ok messages =>
            match
              (if messages.truthy then
                match pyIndexLast messages with
                | .error e => .error e
                | .ok last => last.pyGet "content" (.str "")
               else .ok (.str "") : Except String Json) with
            | .error e => .error e
            | .ok rawUserMessage =>
              match asPyStr rawUserMessage with
              | .error e => .error e
              | .ok user_message =>
                let response_text :=
                  if pyStrIn "test" user_message.toLower then
                    "Mock response to: " ++ user_message.take 50 ++ "..."
                  else template
                match data.pyGet "model" (.str "gpt-3.5-turbo") with
                | .error e => .error e
                | .ok model =>
                  .ok ⟨200, mock_response now model response_text user_message⟩

/-- The `chat_completions` handler: the `try:` body, with every raised
exception folded by the `except:` branch into a 500 response carrying the
structured error body.  Total: no exception escapes. -/
def chat_completions (rawBody : Option Json) (now : Nat)
    (template : String) : HttpResponse :=
  match chatTry rawBody now template with
  | .ok resp => resp
  | .error e => ⟨500, serverErrorBody e⟩

/-- The `/health` handler: a constant — it reads no request data and no
mutable state. -/
def health : HttpResponse :=
  ⟨200, .obj [("status", .str "healthy"), ("server", .str "mock-openai-api")]⟩

/-- The `/v1/models` handler (`now` stands for `int(time.time())`). -/
def list_models (now : Nat) : HttpResponse :=
  ⟨200, .obj
    [("object", .str "list"),
     ("data", .arr
       [.obj [("id", .str "gpt-3.5-turbo"), ("object", .str "model"),
              ("created", .num now), ("owned_by", .str "mock-server")],
        .obj [("id", .str "gpt-4"), ("object", .str "model"),
              ("created", .num now), ("owned_by", .str "mock-server")]])]⟩

/-- The `@app.errorhandler(404)` handler `not_found`. -/
def not_found (path : String) : HttpResponse :=
  ⟨404, .obj [("error", .obj
    [("message", .str ("Path " ++ path ++ " not found on mock server")),
     ("type", .str "not_found"),
     ("code", .str "path_not_found")])]⟩

/-- Paths with an `@app.route` registration in `mock-server.py`. -/
def registeredPaths : List String :=
  ["/health", "/v1/chat/completions", "/v1/models"]

/-- Flask's dispatch over the registered routes: a request whose path
matches no route goes to the 404 handler.  Method mismatch on a
registered path (405) is outside the modelled claims, so the dispatcher
matches on the path alone. -/
def dispatch (path : String) (rawBody : Option Json) (now : Nat)
    (template : String) : HttpResponse :=
  if path = "/health" then health
  else if path = "/v1/chat/completions" then chat_completions rawBody now template
  else if path = "/v1/models" then list_models now
  else not_found path

/-- Shape of the structured error bodies of the mock server:
`{error: {message, type, code}}` with string values, the shape shared by
the 500 and the 404 responses. -/
def errorShape (body : Json) : Prop :=
  ∃ m t c, body = .obj [("error", .obj
    [("message", .str m), ("type", .str t), ("code", .str c)])]

/-- An outbound HTTP request as issued by `self.session.post(url,
json=payload, timeout=30)`: the URL, the session headers, the JSON
payload and the timeout in seconds. -/
structure HttpRequest where
  url : String
  headers : List (String × String)
  jsonBody : Json
  timeout : Nat

/-- Outcome of one `session.post` call: either a raised
`requests.exceptions.RequestException` (network-level failure) or a
response with a status code and a parsed JSON body (`response.json()`). -/
inductive PostResult where
  | exn (e : String) : PostResult
  | resp (status : Nat) (body : Json) : PostResult

/-- The `NexusDemo` client state set up by `__init__`: the base URL and
the API key (the `requests.Session` is represented by the headers derived
below). -/
structure NexusDemo where
  base_url : String
  api_key : String

/-- Headers installed on the session by `__init__` via
`session.headers.update`. -/
def NexusDemo.sessionHeaders (d : NexusDemo) : List (String × String) :=
  [("Authorization", "Bearer " ++ d.api_key),
   ("Content-Type", "application/json")]

/-- The `payload` dict of `make_chat_request`. -/
def chatPayload (message model : String) : Json :=
  .obj [("model", .str model),
        ("messages", .arr [.obj [("role", .str "user"),
                                 ("content", .str message)]]),
        ("max_tokens", .num 50)]

/-- The single outbound request of `make_chat_request`:
`self.session.post(f"{self.base_url}/v1/chat/completions", json=payload,
timeout=30)`. -/
def NexusDemo.chatRequest (d : NexusDemo) (message model : String) :
    HttpRequest :=
  ⟨d.base_url ++ "/v1/chat/completions", d.sessionHeaders,
   chatPayload message model, 30⟩

/-- The client's `make_chat_request`, with the network as the oracle
`net`.  The first component is the returned value: the parsed body for
status 200, `None` on 429, 502, 503, on any other status (the `elif`
chain) and on a caught `RequestException`.  The second component records
the outbound calls issued: the body contains exactly one
`self.session.post` and no loop, so every branch records the one
request. -/
def NexusDemo.make_chat_request (d : NexusDemo) (message : String)
    (model : String) (net : HttpRequest → PostResult) :
    Option Json × List HttpRequest :=
  let req := d.chatRequest message model
  match net req with
  | .exn _ => (none, [req])
  | .resp status body =>
    if status = 200 then (some body, [req])
    else if status = 429 then (none, [req])
    else if status = 502 then (none, [req])
    else if status = 503 then (none, [req])
    else (none, [req])

/-! Helper lemmas shared by the claim theorems. -/

/-- Every `ok` result of the try-block is the 200 `mock_response` for some
model field, response text and user message. -/
theorem chatTry_ok_shape (rawBody : Option Json) (now : Nat)
    (template : String) (resp : HttpResponse)
    (h : chatTry rawBody now template = .ok resp) :
    ∃ model response_text user_message,
      resp = ⟨200, mock_response now model response_text user_message⟩ := by
  unfold chatTry at h
  repeat' split at h
  all_goals simp_all
  all_goals exact ⟨_, _, _, h.symm⟩

/-- Reading the `usage` field of `mock_response` yields the three token
counters. -/
theorem mock_response_usage (now : Nat) (model : Json)
    (response_text user_message : String) :
    (mock_response now model response_text user_message).lookupKey "usage" =
      some (.obj
        [("prompt_tokens", .num (promptTokensEstimate user_message)),
         ("completion_tokens", .num (completionTokensEstimate response_text)),
         ("total_tokens", .num (totalTokensField user_message response_text))]) := rfl

/-- Additivity of the usage counters of a response body: whenever the
body carries a `usage` object with the three token fields, the total
equals prompt plus completion. -/
def usageAdditive (body : Json) : Prop :=
  ∀ usage pt ct tt,
    body.lookupKey "usage" = some usage →
    usage.lookupKey "prompt_tokens" = some (.num pt) →
    usage.lookupKey "completion_tokens" = some (.num ct) →
    usage.lookupKey "total_tokens" = some (.num tt) →
    tt = pt + ct

/-! Claim theorems. -/

/-- C1: the token-cost estimator is monotonic in message length — for any
two user-message strings, if one is at least as long as the other, its
`prompt_tokens` estimate `len(user_message) // 4 + 10` is at least as
large; a larger message body is never estimated to cost fewer tokens. -/
theorem prompt_tokens_monotone (s t : String) (h : s.length ≤ t.length) :
    promptTokensEstimate s ≤ promptTokensEstimate t := by
  unfold promptTokensEstimate
  exact Nat.add_le_add_right (Nat.div_le_div_right h) 10

/-- Witness for C1 at the concrete strings "Hi" and "Hello, this is test
request 1". -/
theorem prompt_tokens_monotone_witness :
    ("Hi" : String).length ≤ ("Hello, this is test request 1" : String).length ∧
      promptTokensEstimate "Hi" ≤
        promptTokensEstimate "Hello, this is test request 1" :=
  ⟨by decide, prompt_tokens_monotone "Hi" "Hello, this is test request 1" (by decide)⟩

/-- C2: `make_chat_request` returns the parsed JSON response body exactly
when the HTTP response status is 200; for 429, 502, 503 and every other
status (and on a network exception) it returns `None`. -/
theorem make_chat_request_ok_iff (d : NexusDemo) (message model : String)
    (net : HttpRequest → PostResult) (j : Json) :
    (d.make_chat_request message model net).1 = some j ↔
      net (d.chatRequest message model) = .resp 200 j := by
  cases hnet : net (d.chatRequest message model) with
  | exn e => simp [NexusDemo.make_chat_request, hnet]
  | resp status body =>
    rcases eq_or_ne status 200 with h | h
    · subst h
      simp [NexusDemo.make_chat_request, hnet]
    · simp only [NexusDemo.make_chat_request, hnet, if_neg h]
      split_ifs <;> simp [PostResult.resp.injEq, h]

/-- C3: whenever the body of the chat handler's `try:` block raises an
exception, `chat_completions` returns HTTP 500 with the structured body
`{error: {message, type, code}}`; the handler is total, so no exception
escapes it. -/
theorem chat_completions_exception_to_500 (rawBody : Option Json)
    (now : Nat) (template e : String)
    (h : chatTry rawBody now template = .error e) :
    chat_completions rawBody now template = ⟨500, serverErrorBody e⟩ ∧
      errorShape (chat_completions rawBody now template).body := by
  have hr : chat_completions rawBody now template = ⟨500, serverErrorBody e⟩ := by
    unfold chat_completions
    rw [h]
  exact ⟨hr, by rw [hr]; exact ⟨_, _, _, rfl⟩⟩

/-- Witness for C3 at a request body that is not valid JSON
(`rawBody = none`, on which `request.get_json()` raises). -/
theorem chat_completions_exception_to_500_witness :
    chatTry none 0 "ok" = .error "BadRequest: failed to decode JSON object" ∧
      (chat_completions none 0 "ok" =
          ⟨500, serverErrorBody "BadRequest: failed to decode JSON object"⟩ ∧
        errorShape (chat_completions none 0 "ok").body) :=
  ⟨rfl, chat_completions_exception_to_500 none 0 "ok" _ rfl⟩

/-- C4: every request dispatched to `/health` gets the one fixed response,
independent of the request body, the clock and the template choice; that
response is HTTP 200 and its body carries `"status": "healthy"`, so any
two invocations of the handler produce the same response. -/
theorem health_ok_fixed (rawBody : Option Json) (now : Nat)
    (template : String) :
    dispatch "/health" rawBody now template = health ∧
      health.status = 200 ∧
      health.body.lookupKey "status" = some (.str "healthy") :=
  ⟨rfl, rfl, rfl⟩

/-- C5: `make_chat_request` issues its POST at
`{base_url}/v1/chat/completions`; the JSON body has exactly the fields
`model`, `messages` and `max_tokens`, with `messages` the one-element
list `[{"role": "user", "content": message}]` and `max_tokens` 50, and
the headers carry `Authorization: Bearer <api_key>`. -/
theorem make_chat_request_payload_shape (d : NexusDemo)
    (message model : String) (net : HttpRequest → PostResult) :
    (d.make_chat_request message model net).2 = [d.chatRequest message model] ∧
      (d.chatRequest message model).url = d.base_url ++ "/v1/chat/completions" ∧
      (d.chatRequest message model).jsonBody =
        .obj [("model", .str model),
              ("messages", .arr [.obj [("role", .str "user"),
                                       ("content", .str message)]]),
              ("max_tokens", .num 50)] ∧
      (d.chatRequest message model).headers.lookup "Authorization" =
        some ("Bearer " ++ d.api_key) := by
  refine ⟨?_, rfl, rfl, rfl⟩
  cases hnet : net (d.chatRequest message model) with
  | exn e => simp [NexusDemo.make_chat_request, hnet]
  | resp status body =>
    simp only [NexusDemo.make_chat_request, hnet]
    split_ifs <;> rfl

/-- C6: when the POST raises a `requests.exceptions.RequestException`,
`make_chat_request` catches it and returns `None`; the exception never
propagates to the caller (the function is total). -/
theorem make_chat_request_network_error_none (d : NexusDemo)
    (message model : String) (net : HttpRequest → PostResult) (e : String)
    (h : net (d.chatRequest message model) = .exn e) :
    (d.make_chat_request message model net).1 = none := by
  simp [NexusDemo.make_chat_request, h]

/-- Witness for C6 with a network oracle that always raises a connection
error. -/
theorem make_chat_request_network_error_none_witness :
    ((fun _ => PostResult.exn "ConnectionError") : HttpRequest → PostResult)
        ((⟨"http://localhost:8080", "sk-demo-key-12345"⟩ :
          NexusDemo).chatRequest "Hi" "gpt-3.5-turbo") = .exn "ConnectionError" ∧
      ((⟨"http://localhost:8080", "sk-demo-key-12345"⟩ :
          NexusDemo).make_chat_request "Hi" "gpt-3.5-turbo"
        (fun _ => PostResult.exn "ConnectionError")).1 = none :=
  ⟨rfl, make_chat_request_network_error_none
    ⟨"http://localhost:8080", "sk-demo-key-12345"⟩ "Hi" "gpt-3.5-turbo"
    (fun _ => PostResult.exn "ConnectionError") "ConnectionError" rfl⟩

/-- C7: each call to `make_chat_request` issues exactly one outbound HTTP
request, whatever the response status and also on a network failure: no
retry is ever performed. -/
theorem make_chat_request_single_call (d : NexusDemo)
    (message model : String) (net : HttpRequest → PostResult) :
    (d.make_chat_request message model net).2.length = 1 := by
  cases hnet : net (d.chatRequest message model) with
  | exn e => simp [NexusDemo.make_chat_request, hnet]
  | resp status body =>
    simp only [NexusDemo.make_chat_request, hnet]
    split_ifs <;> rfl

/-- C8: in every 200 response of `chat_completions`, the usage field
satisfies `total_tokens = prompt_tokens + completion_tokens`: the source
writes the total as `len(user_message) // 4 + len(response_text) // 4 +
15`, which equals `(len(user_message) // 4 + 10) + (len(response_text) //
4 + 5)` for all string lengths. -/
theorem chat_usage_additive (rawBody : Option Json) (now : Nat)
    (template : String)
    (h : (chat_completions rawBody now template).status = 200) :
    usageAdditive (chat_completions rawBody now template).body := by
  cases hc : chatTry rawBody now template with
  | error e =>
    exfalso
    unfold chat_completions at h
    rw [hc] at h
    simp at h
  | ok resp =>
    obtain ⟨model, response_text, user_message, rfl⟩ :=
      chatTry_ok_shape rawBody now template resp hc
    unfold chat_completions
    rw [hc]
    intro usage pt ct tt husage hpt hct htt
    rw [mock_response_usage] at husage
    obtain rfl := Option.some.inj husage
    have hpt2 : (promptTokensEstimate user_message : Int) = pt :=
      Json.num.inj (Option.some.inj hpt)
    have hct2 : (completionTokensEstimate response_text : Int) = ct :=
      Json.num.inj (Option.some.inj hct)
    have htt2 : (totalTokensField user_message response_text : Int) = tt :=
      Json.num.inj (Option.some.inj htt)
    subst hpt2 hct2 htt2
    unfold totalTokensField promptTokensEstimate completionTokensEstimate
    push_cast
    ring

/-- Witness for C8 at the empty JSON object body, whose response has
status 200. -/
theorem chat_usage_additive_witness :
    (chat_completions (some (.obj [])) 0
        "The mock server is working correctly!").status = 200 ∧
      usageAdditive (chat_completions (some (.obj [])) 0
        "The mock server is working correctly!").body :=
  ⟨rfl, chat_usage_additive (some (.obj [])) 0
    "The mock server is working correctly!" rfl⟩

/-- C9 counterexample: the body `null` is valid JSON and has no
`messages` list, yet the handler answers 500, not 200 — `data.get` raises
an `AttributeError` on `None`, so the claim as stated (over every valid
JSON body) fails. -/
theorem chat_null_body_counterexample :
    (chat_completions (some Json.null) 0
        "The mock server is working correctly!").status = 500 ∧
      (chat_completions (some Json.null) 0
        "The mock server is working correctly!").status ≠ 200 :=
  ⟨rfl, by decide⟩

/-- C9 (amended): for every POST whose body is a valid JSON object with
an empty or absent `messages` entry, the handler still returns HTTP 200,
treating the user message as the empty string so that `prompt_tokens` is
10; the 500 branch is unreachable for such inputs. -/
theorem chat_obj_empty_messages_200 (fields : List (String × Json))
    (now : Nat) (template : String)
    (h : fields.lookup "messages" = none ∨
      fields.lookup "messages" = some (.arr [])) :
    (chat_completions (some (.obj fields)) now template).status = 200 ∧
      ((chat_completions (some (.obj fields)) now template).body.lookupKey
          "usage").bind (fun u => u.lookupKey "prompt_tokens") =
        some (.num 10) := by
  have hmsg : (fields.lookup "messages").getD (.arr []) = .arr [] := by
    rcases h with h | h <;> rw [h] <;> rfl
  simp only [chat_completions, chatTry, getJsonOrRaise, Json.pyGet]
  rw [hmsg]
  exact ⟨rfl, rfl⟩

/-- Witness for the amended C9 at the empty JSON object. -/
theorem chat_obj_empty_messages_200_witness :
    ([] : List (String × Json)).lookup "messages" = none ∧
      ((chat_completions (some (.obj [])) 0
          "This is a simulated response from the mock API.").status = 200 ∧
        ((chat_completions (some (.obj [])) 0
            "This is a simulated response from the mock API.").body.lookupKey
            "usage").bind (fun u => u.lookupKey "prompt_tokens") =
          some (.num 10)) :=
  ⟨rfl, chat_obj_empty_messages_200 [] 0
    "This is a simulated response from the mock API." (Or.inl rfl)⟩

/-- C10: every request whose path matches no registered route is answered
by the 404 handler, whose body has the same structured shape
`{error: {message, type, code}}` as the 500 body, with type
`"not_found"` and code `"path_not_found"`. -/
theorem unmatched_path_404 (path : String) (rawBody : Option Json)
    (now : Nat) (template : String) (h : path ∉ registeredPaths) :
    dispatch path rawBody now template = not_found path ∧
      (not_found path).status = 404 ∧
      errorShape (not_found path).body ∧
      ((not_found path).body.lookupKey "error").bind
          (fun e => e.lookupKey "type") = some (.str "not_found") ∧
      ((not_found path).body.lookupKey "error").bind
          (fun e => e.lookupKey "code") = some (.str "path_not_found") := by
  simp only [registeredPaths, List.mem_cons, List.not_mem_nil, or_false,
    not_or] at h
  obtain ⟨h1, h2, h3⟩ := h
  refine ⟨?_, rfl, ⟨_, _, _, rfl⟩, rfl, rfl⟩
  unfold dispatch
  rw [if_neg h1, if_neg h2, if_neg h3]

/-- Witness for C10 at the unregistered path `/nope`. -/
theorem unmatched_path_404_witness :
    "/nope" ∉ registeredPaths ∧
      (dispatch "/nope" none 0 "ok" = not_found "/nope" ∧
        (not_found "/nope").status = 404 ∧
        errorShape (not_found "/nope").body ∧
        ((not_found "/nope").body.lookupKey "error").bind
            (fun e => e.lookupKey "type") = some (.str "not_found") ∧
        ((not_found "/nope").body.lookupKey "error").bind
            (fun e => e.lookupKey "code") = some (.str "path_not_found")) :=
  ⟨by decide, unmatched_path_404 "/nope" none 0 "ok" (by decide)⟩
